import Mathlib

/-!
Verification of the session-scoped WebSocket relay and status-message
fan-out of the `status_messenger` example application
(`example_app/main.py`), as a shallow embedding in Lean 4.

The embedding translates the Python source into pure Lean functions:
* WebSocket handles carry an identifier, a client state and a send
  behaviour (whether `send_text` raises for a given payload);
* the process-wide dict `active_websockets` becomes an association list
  with Python-dict semantics (insert overwrites in place, `pop` removes);
* JSON payloads handed to `json.dumps` are modelled as structured values;
* each `async` loop becomes structural recursion over the finite list of
  items the loop consumes;
* exceptions become explicit result constructors.
-/

namespace StatusMessenger

/-- Starlette `WebSocketState` for the client side of a socket. -/
inductive WebSocketState where
  | CONNECTING
  | CONNECTED
  | DISCONNECTED
deriving DecidableEq, Repr

/-- A primitive JSON value appearing as a field of an outbound frame. -/
inductive JPrim where
  | str (s : String)
  | bool (b : Bool)
deriving DecidableEq, Repr

/-- A JSON object as built by the Python handlers before `json.dumps`:
every payload the application constructs is a flat object whose fields
are strings or booleans, in insertion order. -/
def JValue := List (String × JPrim)

instance : DecidableEq JValue := inferInstanceAs (DecidableEq (List (String × JPrim)))
instance : Repr JValue := inferInstanceAs (Repr (List (String × JPrim)))

/-- Model of a live WebSocket transport handle.  `ident` distinguishes
physical connections; `client_state` is the Starlette client state the
server observes; `sendOk payload` tells whether `send_text payload`
succeeds (`false` models `send_text` raising an exception). -/
structure WebSocket where
  ident : Nat
  client_state : WebSocketState
  sendOk : JValue → Bool

/-- The process-wide `active_websockets: Dict[str, WebSocket]`, as an
association list in insertion order (Python dicts preserve it). -/
def Registry := List (String × WebSocket)

/-- Python `d[k] = v`: overwrite the entry in place when the key is
present, append otherwise. -/
def dictSet (k : String) (v : WebSocket) : Registry → Registry
  | [] => [(k, v)]
  | (k', v') :: rest =>
    if k' = k then (k, v) :: rest else (k', v') :: dictSet k v rest

/-- Python `d.get(k)`: first value stored under `k`, if any. -/
def dictGet (k : String) : Registry → Option WebSocket
  | [] => none
  | (k', v') :: rest => if k' = k then some v' else dictGet k rest

/-- Python `d.pop(k, None)`: remove the first entry under `k` and return
the removed value together with the remaining dict. -/
def dictPop (k : String) : Registry → Option WebSocket × Registry
  | [] => (none, [])
  | (k', v') :: rest =>
    if k' = k then (some v', rest)
    else
      let r := dictPop k rest
      (r.1, (k', v') :: r.2)

/-- Well-formedness of the registry: no two entries share a key
(guaranteed for anything built from `[]` by dict operations). -/
def dictWF (reg : Registry) : Prop :=
  (reg.map Prod.fst).Nodup

instance : DecidablePred dictWF := fun reg =>
  inferInstanceAs (Decidable ((reg.map Prod.fst).Nodup))

/-- Number of registry entries stored under key `k`. -/
def keyCount (k : String) (reg : Registry) : Nat :=
  (reg.filter (fun e => e.1 = k)).length

/-- The status frame `{"type": "status", "data": status_text}` built by
`broadcast_app_status_to_client`. -/
def statusFrame (status_text : String) : JValue :=
  [("type", .str "status"), ("data", .str status_text)]

/-- Outcome of sending one frame on a socket: either the frame was
written, or `send_text` raised. -/
inductive SendOutcome where
  | sent (target : Nat) (frame : JValue)
  | raised
deriving DecidableEq, Repr

/-- `broadcast_app_status_to_client(websocket, status_text, session_id)`:
if the client state is CONNECTED, send the status frame (which may
raise); otherwise do nothing.  `none` models "no send attempted". -/
def broadcast_app_status_to_client (websocket : WebSocket) (status_text : String) :
    Option SendOutcome :=
  if websocket.client_state = WebSocketState.CONNECTED then
    let payload := statusFrame status_text
    if websocket.sendOk payload then some (.sent websocket.ident payload)
    else some .raised
  else none

/-- What one iteration of `status_message_broadcaster` did with one
`(target_session_id, message_text)` pair pulled from the channel. -/
inductive BroadcastStep where
  /-- The frame was delivered to the connection with this identifier. -/
  | delivered (target : Nat) (frame : JValue)
  /-- The send raised; the exception was caught and logged in the loop. -/
  | sendErrorLogged
  /-- A handle was registered but not CONNECTED; warning logged. -/
  | notConnectedLogged
  /-- No handle registered for the session; warning logged. -/
  | noWebSocketLogged
deriving DecidableEq, Repr

/-- The body of `status_message_broadcaster`'s `async for` for a single
message, over a fixed registry snapshot. -/
def broadcasterStep (reg : Registry) (msg : String × String) : BroadcastStep :=
  match dictGet msg.1 reg with
  | some ws =>
    if ws.client_state = WebSocketState.CONNECTED then
      match broadcast_app_status_to_client ws msg.2 with
      | some (.sent target frame) => .delivered target frame
      | some .raised => .sendErrorLogged
      | none => .sendErrorLogged
    else .notConnectedLogged
  | none => .noWebSocketLogged

/-- `status_message_broadcaster`: drain the status channel (modelled by
the finite list of `(session_id, text)` pairs it yields) and dispatch
each message in turn.  Every per-message exception is caught inside the
loop, so the loop always advances to the next message. -/
def status_message_broadcaster (reg : Registry) :
    List (String × String) → List BroadcastStep
  | [] => []
  | msg :: rest => broadcasterStep reg msg :: status_message_broadcaster reg rest

/-- The frames actually written to sockets by a run of the broadcaster:
pairs of (connection identifier, frame). -/
def framesSent (steps : List BroadcastStep) : List (Nat × JValue) :=
  steps.filterMap fun s =>
    match s with
    | .delivered target frame => some (target, frame)
    | _ => none

/-! ### Agent event model (`google.genai.types.Part` / `Content`) -/

/-- `google.genai.types.Part`: only the `text` attribute is consulted by
the relay; it may be `None`. -/
structure GPart where
  text : Option String
deriving DecidableEq, Repr

/-- `google.genai.types.Content`: `role` and `parts`, both optional in
the underlying model. -/
structure GContent where
  role : Option String
  parts : Option (List GPart)
deriving DecidableEq, Repr

/-- One event yielded by the ADK live event stream, restricted to the
attributes `agent_to_client_messaging` reads. -/
structure AgentEvent where
  turn_complete : Bool
  interrupted : Bool
  content : Option GContent
deriving DecidableEq, Repr

def agentTurnCompleteFrame : JValue :=
  [("type", .str "agent_turn_complete"), ("turn_complete", .bool true)]

def agentInterruptedFrame : JValue :=
  [("type", .str "agent_interrupted"), ("interrupted", .bool true)]

def agentMessageFrame (text : String) : JValue :=
  [("type", .str "agent_message"), ("message", .str text)]

/-- The Python truthiness chain
`part = (event.content and event.content.parts and event.content.parts[0])`
followed by `if part and part.text:` — yields the text to forward, if
any.  A missing content, missing/empty parts list, or a `None`/empty
`text` (both falsy in Python) all yield nothing. -/
def eventExtractText (event : AgentEvent) : Option String :=
  match event.content with
  | none => none
  | some content =>
    match content.parts with
    | none => none
    | some [] => none
    | some (part :: _) =>
      match part.text with
      | none => none
      | some t => if t = "" then none else some t

/-- The `message_to_send` computed for one event by the body of
`agent_to_client_messaging`'s `async for` loop. -/
def eventMessageToSend (event : AgentEvent) : Option JValue :=
  if event.turn_complete then some agentTurnCompleteFrame
  else if event.interrupted then some agentInterruptedFrame
  else
    match eventExtractText event with
    | some text => some (agentMessageFrame text)
    | none => none

/-- `agent_to_client_messaging`: consume the live event stream (modelled
by the finite list of events it yields) and write each non-`None`
`message_to_send` to the transport, in consumption order. -/
def agent_to_client_messaging : List AgentEvent → List JValue
  | [] => []
  | event :: rest =>
    match eventMessageToSend event with
    | some frame => frame :: agent_to_client_messaging rest
    | none => agent_to_client_messaging rest

/-! ### Client-to-agent relay -/

/-- How `client_to_agent_messaging`'s receive loop ends: the client
disconnects (`WebSocketDisconnect`), the task is cancelled
(`asyncio.CancelledError`), or `receive_text` raises some other error. -/
inductive ClientTermination where
  | disconnect
  | cancelled
  | receiveError
deriving DecidableEq, Repr

/-- `Content(role="user", parts=[Part.from_text(text=text)])`. -/
def userMessage (text : String) : GContent :=
  { role := some "user", parts := some [{ text := some text }] }

/-- The receive loop body applied to each inbound text frame in arrival
order: each frame is wrapped and enqueued via
`live_request_queue.send_content`. -/
def enqueueLoop : List String → List GContent
  | [] => []
  | text :: rest => userMessage text :: enqueueLoop rest

/-- Result of one run of `client_to_agent_messaging`. -/
structure ClientRelayRun where
  enqueued : List GContent
  queueClosed : Bool
  reraisedCancellation : Bool
deriving DecidableEq, Repr

/-- `client_to_agent_messaging`: loop over the inbound text frames the
transport yields before terminating; the terminating exception is
handled by the matching `except` branch, each of which calls
`live_request_queue.close()`, and only cancellation is re-raised. -/
def client_to_agent_messaging (texts : List String) (term : ClientTermination) :
    ClientRelayRun :=
  { enqueued := enqueueLoop texts
  , queueClosed :=
      match term with
      | .disconnect => true
      | .cancelled => true
      | .receiveError => true
  , reraisedCancellation :=
      match term with
      | .cancelled => true
      | _ => false }

/-! ### HTTP GET / handler -/

/-- The value returned by the `root_path` handler: either a
`FileResponse` for the given path, or the Python tuple
`({"error": ...}, 404)` returned verbatim (FastAPI treats the returned
value as the response body; the `404` member of the tuple is not
installed as the HTTP status). -/
inductive RootResponse where
  | fileResponse (path : String)
  | tupleBodyStatus (body : JValue) (status : Nat)
deriving DecidableEq, Repr

/-- `root_path`: serve `STATIC_DIR / "index.html"` when it is a file,
otherwise return `{"error": "index.html not found"}, 404`. -/
def root_path (staticDir : String) (indexIsFile : Bool) : RootResponse :=
  let index_html_path := staticDir ++ "/index.html"
  if indexIsFile then .fileResponse index_html_path
  else .tupleBodyStatus [("error", .str "index.html not found")] 404

/-! ### The WebSocket endpoint lifecycle (`websocket_endpoint`) -/

/-- Session lifecycle phase, following the spec's state machine
`Connecting → Active → Draining → Closed`. -/
inductive SessionPhase where
  | Connecting
  | Active
  | Draining
  | Closed
deriving DecidableEq, Repr

/-- How the `try` body of `websocket_endpoint` ends.  The `Bool` fields
record which relay tasks had already finished on their own when control
reached the `finally` block. -/
inductive BodyOutcome where
  /-- `start_agent_session` raised; caught by `except Exception`;
  no relay tasks and no `live_request_queue` were ever created. -/
  | startAgentFailed
  /-- `asyncio.wait` (or the subsequent bookkeeping) raised a
  non-cancellation exception, caught by `except Exception`. -/
  | waitRaised (a2cDone c2aDone : Bool)
  /-- The endpoint task itself was cancelled while awaiting; the
  `finally` block still runs. -/
  | endpointCancelled (a2cDone c2aDone : Bool)
  /-- `asyncio.wait(..., return_when=FIRST_COMPLETED)` returned
  normally. -/
  | waitReturned (a2cDone c2aDone : Bool)
deriving DecidableEq, Repr

/-- External nondeterminism of one `websocket_endpoint` execution. -/
structure Scenario where
  body : BodyOutcome
  /-- Milliseconds until the agent-to-client task acknowledges
  cancellation (by raising `CancelledError` or any other exception);
  `none` means it never does. -/
  a2cCancelAck : Option Nat
  /-- Same for the client-to-agent task. -/
  c2aCancelAck : Option Nat
  /-- `websocket.client_state` observed by the `finally` block. -/
  wsStateAtCleanup : WebSocketState
  /-- Whether `websocket.close(code=1000)` raises (caught and logged). -/
  wsCloseRaises : Bool
  /-- Whether `live_request_queue.close()` in the `finally` raises
  (caught and logged). -/
  queueCloseRaises : Bool

/-- Milliseconds `await asyncio.wait_for(task, timeout=2.0)` suspends
for one cancelled task: until the task settles, capped at 2000 ms by
the timeout. -/
def cancelWaitMs (ack : Option Nat) : Nat :=
  match ack with
  | some ms => min ms 2000
  | none => 2000

/-- Whether the agent-to-client task is in `tasks_to_cancel`: it exists
and had not finished when the `finally` block ran. -/
def a2cPending (body : BodyOutcome) : Bool :=
  match body with
  | .startAgentFailed => false
  | .waitRaised a2cDone _ => !a2cDone
  | .endpointCancelled a2cDone _ => !a2cDone
  | .waitReturned a2cDone _ => !a2cDone

/-- Whether the client-to-agent task is in `tasks_to_cancel`. -/
def c2aPending (body : BodyOutcome) : Bool :=
  match body with
  | .startAgentFailed => false
  | .waitRaised _ c2aDone => !c2aDone
  | .endpointCancelled _ c2aDone => !c2aDone
  | .waitReturned _ c2aDone => !c2aDone

/-- Observable outcome of one `websocket_endpoint` execution. -/
structure EndpointRun where
  /-- `active_websockets` right after registration (while Active). -/
  registryActive : Registry
  /-- `active_websockets` after the `finally` block. -/
  registryFinal : Registry
  /-- Context variable value while the agent scope runs. -/
  ctxDuringAgent : Option String
  /-- Context variable value after the `finally` block. -/
  ctxFinal : Option String
  /-- Whether `start_agent_session` returned a `live_request_queue`. -/
  queueCreated : Bool
  /-- Whether the `finally` block invoked `live_request_queue.close()`. -/
  queueCloseCalled : Bool
  /-- Whether the `finally` block invoked `websocket.close(code=1000)`. -/
  wsCloseCalled : Bool
  /-- Number of still-running relay tasks the `finally` cancelled. -/
  cancelledTaskCount : Nat
  /-- Total milliseconds spent waiting for acknowledged cancellation. -/
  drainWaitMs : Nat
  /-- Lifecycle phases traversed, in order. -/
  phases : List SessionPhase

/-- `websocket_endpoint(websocket, session_id_from_path)`: accept,
register the socket under the session id, bind the session-id context
variable, run the agent session and relay tasks according to the
scenario, then perform the `finally` cleanup.  `reg0` and `ctx0` are
`active_websockets` and the context variable's value on entry. -/
def websocket_endpoint (reg0 : Registry) (ctx0 : Option String)
    (session_id : String) (websocket : WebSocket) (sc : Scenario) : EndpointRun :=
  -- await websocket.accept(); active_websockets[session_id] = websocket
  let reg1 := dictSet session_id websocket reg0
  -- try: context_var_token = current_websocket_session_id_var.set(session_id)
  let token := ctx0
  let queueCreated := sc.body ≠ BodyOutcome.startAgentFailed
  -- finally:
  --   if context_var_token: current_websocket_session_id_var.reset(context_var_token)
  let ctxFinal := token
  --   removed_ws = active_websockets.pop(session_id, None)
  let reg2 := (dictPop session_id reg1).2
  --   cancel remaining tasks, each bounded by wait_for(..., timeout=2.0);
  --   CancelledError / TimeoutError / other exceptions all caught
  let nCancel := (if a2cPending sc.body then 1 else 0) + (if c2aPending sc.body then 1 else 0)
  let wait := (if a2cPending sc.body then cancelWaitMs sc.a2cCancelAck else 0)
      + (if c2aPending sc.body then cancelWaitMs sc.c2aCancelAck else 0)
  --   if live_request_queue: live_request_queue.close()  (errors caught)
  let queueCloseCalled := queueCreated
  --   if websocket.client_state == CONNECTED: await websocket.close(code=1000)
  --   (errors caught)
  let wsCloseCalled := sc.wsStateAtCleanup = WebSocketState.CONNECTED
  { registryActive := reg1
  , registryFinal := reg2
  , ctxDuringAgent := some session_id
  , ctxFinal := ctxFinal
  , queueCreated := queueCreated
  , queueCloseCalled := queueCloseCalled
  , wsCloseCalled := wsCloseCalled
  , cancelledTaskCount := nCancel
  , drainWaitMs := wait
  , phases :=
      .Connecting :: (if queueCreated then [SessionPhase.Active] else [])
        ++ [SessionPhase.Draining, SessionPhase.Closed] }

/-! ### Registry lemmas -/

theorem keys_dictSet (k : String) (v : WebSocket) (reg : Registry) (a : String) :
    a ∈ (dictSet k v reg).map Prod.fst ↔ a ∈ reg.map Prod.fst ∨ a = k := by
  induction reg with
  | nil => simp [dictSet]
  | cons e rest ih =>
    obtain ⟨k', v'⟩ := e
    simp only [dictSet]
    split
    · next hk =>
        subst hk
        simp only [List.map_cons, List.mem_cons]
        tauto
    · next hk =>
        simp only [List.map_cons, List.mem_cons]
        rw [ih]
        tauto

theorem dictWF_dictSet (k : String) (v : WebSocket) (reg : Registry)
    (h : dictWF reg) : dictWF (dictSet k v reg) := by
  induction reg with
  | nil => simp [dictWF, dictSet]
  | cons e rest ih =>
    obtain ⟨k', v'⟩ := e
    simp only [dictWF, List.map_cons, List.nodup_cons] at h
    obtain ⟨hnot, hrest⟩ := h
    simp only [dictSet]
    split
    · next hk =>
        subst hk
        simp only [dictWF, List.map_cons, List.nodup_cons]
        exact ⟨hnot, hrest⟩
    · next hk =>
        simp only [dictWF, List.map_cons, List.nodup_cons]
        refine ⟨fun hmem => ?_, ih hrest⟩
        rcases (keys_dictSet k v rest k').mp hmem with h | h
        · exact hnot h
        · exact hk h

theorem dictGet_eq_none_of_not_mem (k : String) (reg : Registry)
    (h : k ∉ reg.map Prod.fst) : dictGet k reg = none := by
  induction reg with
  | nil => rfl
  | cons e rest ih =>
    obtain ⟨k', v'⟩ := e
    simp only [List.map_cons, List.mem_cons] at h
    push_neg at h
    simp only [dictGet]
    split
    · next hk => exact absurd hk.symm h.1
    · next hk => exact ih h.2

theorem dictGet_dictPop_self (k : String) (reg : Registry) (h : dictWF reg) :
    dictGet k (dictPop k reg).2 = none := by
  induction reg with
  | nil => rfl
  | cons e rest ih =>
    obtain ⟨k', v'⟩ := e
    simp only [dictWF, List.map_cons, List.nodup_cons] at h
    obtain ⟨hnot, hrest⟩ := h
    simp only [dictPop]
    split
    · next hk =>
        subst hk
        exact dictGet_eq_none_of_not_mem k' rest hnot
    · next hk =>
        simp only [dictGet]
        rw [if_neg hk]
        exact ih hrest

theorem dictGet_dictSet_self (k : String) (v : WebSocket) (reg : Registry) :
    dictGet k (dictSet k v reg) = some v := by
  induction reg with
  | nil => simp [dictSet, dictGet]
  | cons e rest ih =>
    obtain ⟨k', v'⟩ := e
    simp only [dictSet]
    split
    · next hk => simp [dictGet]
    · next hk =>
        simp only [dictGet]
        rw [if_neg hk]
        exact ih

theorem keyCount_eq_zero_of_not_mem (k : String) (reg : Registry)
    (h : k ∉ reg.map Prod.fst) : keyCount k reg = 0 := by
  induction reg with
  | nil => rfl
  | cons e rest ih =>
    obtain ⟨k', v'⟩ := e
    simp only [List.map_cons, List.mem_cons] at h
    push_neg at h
    simp only [keyCount, List.filter_cons]
    rw [if_neg (by simpa using fun hk => h.1 hk.symm)]
    exact ih h.2

theorem keyCount_dictSet (k : String) (v : WebSocket) (reg : Registry)
    (h : dictWF reg) : keyCount k (dictSet k v reg) = 1 := by
  induction reg with
  | nil => simp [dictSet, keyCount]
  | cons e rest ih =>
    obtain ⟨k', v'⟩ := e
    simp only [dictWF, List.map_cons, List.nodup_cons] at h
    obtain ⟨hnot, hrest⟩ := h
    simp only [dictSet]
    split
    · next hk =>
        subst hk
        simp only [keyCount, List.filter_cons]
        rw [if_pos (by simp)]
        have hz := keyCount_eq_zero_of_not_mem k' rest hnot
        simp only [keyCount] at hz
        simp [hz]
    · next hk =>
        simp only [keyCount, List.filter_cons]
        rw [if_neg (by simpa using hk)]
        exact ih hrest

/-! ### Auxiliary lemmas about the relay loops -/

theorem agent_relay_eq_filterMap (events : List AgentEvent) :
    agent_to_client_messaging events = events.filterMap eventMessageToSend := by
  induction events with
  | nil => rfl
  | cons e rest ih =>
    simp only [agent_to_client_messaging, List.filterMap_cons]
    cases h : eventMessageToSend e <;> simp [ih]

theorem enqueueLoop_eq_map (texts : List String) :
    enqueueLoop texts = texts.map userMessage := by
  induction texts with
  | nil => rfl
  | cons t rest ih => simp [enqueueLoop, ih]

theorem status_message_broadcaster_append (reg : Registry)
    (l1 l2 : List (String × String)) :
    status_message_broadcaster reg (l1 ++ l2)
      = status_message_broadcaster reg l1 ++ status_message_broadcaster reg l2 := by
  induction l1 with
  | nil => rfl
  | cons m rest ih => simp [status_message_broadcaster, ih]

theorem status_message_broadcaster_length (reg : Registry)
    (msgs : List (String × String)) :
    (status_message_broadcaster reg msgs).length = msgs.length := by
  induction msgs with
  | nil => rfl
  | cons m rest ih => simp [status_message_broadcaster, ih]

theorem cancelWaitMs_le (ack : Option Nat) : cancelWaitMs ack ≤ 2000 := by
  cases ack with
  | none => exact le_refl _
  | some ms => exact min_le_right ms 2000

/-! ### Demo handles used by the concrete witnesses -/

def wsDemo : WebSocket :=
  { ident := 1, client_state := .CONNECTED, sendOk := fun _ => true }

def wsDemo2 : WebSocket :=
  { ident := 2, client_state := .CONNECTED, sendOk := fun _ => true }

def wsFailDemo : WebSocket :=
  { ident := 3, client_state := .CONNECTED, sendOk := fun _ => false }

def scenarioDemo : Scenario :=
  { body := .waitReturned false true
  , a2cCancelAck := none
  , c2aCancelAck := some 100
  , wsStateAtCleanup := .CONNECTED
  , wsCloseRaises := false
  , queueCloseRaises := false }

/-! ### Claim theorems -/

/-- C1: for every session id `s` and status text `t` dequeued from the
status channel: when a handle for `s` is registered and its client
state is CONNECTED, the broadcaster sends exactly the frame
`{"type":"status","data":t}` to that connection and to no other
connection; when no handle is registered, or the handle is not
connected, the message is only logged and the broadcaster's loop
continues without raising to the producer or its caller. -/
theorem status_broadcast_exact_delivery (reg : Registry) (s t : String) :
    (∀ ws : WebSocket, dictGet s reg = some ws →
        ws.client_state = WebSocketState.CONNECTED →
        ws.sendOk (statusFrame t) = true →
        broadcasterStep reg (s, t) = .delivered ws.ident (statusFrame t) ∧
        framesSent [broadcasterStep reg (s, t)] = [(ws.ident, statusFrame t)])
    ∧ (dictGet s reg = none →
        broadcasterStep reg (s, t) = .noWebSocketLogged ∧
        framesSent [broadcasterStep reg (s, t)] = [])
    ∧ (∀ ws : WebSocket, dictGet s reg = some ws →
        ws.client_state ≠ WebSocketState.CONNECTED →
        broadcasterStep reg (s, t) = .notConnectedLogged ∧
        framesSent [broadcasterStep reg (s, t)] = [])
    ∧ (∀ rest, status_message_broadcaster reg ((s, t) :: rest)
        = broadcasterStep reg (s, t) :: status_message_broadcaster reg rest) := by
  refine ⟨?_, ?_, ?_, fun rest => rfl⟩
  · intro ws hget hconn hsend
    have hstep : broadcasterStep reg (s, t) = .delivered ws.ident (statusFrame t) := by
      simp [broadcasterStep, hget, broadcast_app_status_to_client, hconn, hsend]
    exact ⟨hstep, by rw [hstep]; simp [framesSent]⟩
  · intro hget
    have hstep : broadcasterStep reg (s, t) = .noWebSocketLogged := by
      simp [broadcasterStep, hget]
    exact ⟨hstep, by rw [hstep]; simp [framesSent]⟩
  · intro ws hget hconn
    have hstep : broadcasterStep reg (s, t) = .notConnectedLogged := by
      simp [broadcasterStep, hget, hconn]
    exact ⟨hstep, by rw [hstep]; simp [framesSent]⟩

theorem status_broadcast_exact_delivery_witness :
    broadcasterStep [("abc", wsDemo)] ("abc", "hi")
      = .delivered 1 (statusFrame "hi") :=
  ((status_broadcast_exact_delivery [("abc", wsDemo)] "abc" "hi").1 wsDemo
    rfl rfl rfl).1

/-- C2: for every `AgentEvent` consumed by the agent-to-client relay,
the frame written is determined by: `turn_complete` maps to
`{"type":"agent_turn_complete","turn_complete":true}`; otherwise
`interrupted` maps to `{"type":"agent_interrupted","interrupted":true}`;
otherwise an event whose first content part carries (non-empty) text
`x` maps to `{"type":"agent_message","message":x}`.  Frames are emitted
in consumption order, and after a `TurnComplete` event no further frame
is emitted until another event arrives. -/
theorem agent_to_client_frame_mapping :
    (∀ events : List AgentEvent,
        agent_to_client_messaging events = events.filterMap eventMessageToSend)
    ∧ (∀ (events : List AgentEvent) (e : AgentEvent),
        agent_to_client_messaging (events ++ [e])
          = agent_to_client_messaging events ++ (eventMessageToSend e).toList)
    ∧ (∀ e : AgentEvent, e.turn_complete = true →
        eventMessageToSend e = some agentTurnCompleteFrame)
    ∧ (∀ e : AgentEvent, e.turn_complete = false → e.interrupted = true →
        eventMessageToSend e = some agentInterruptedFrame)
    ∧ (∀ (e : AgentEvent) (c : GContent) (p : GPart) (ps : List GPart) (x : String),
        e.turn_complete = false → e.interrupted = false →
        e.content = some c → c.parts = some (p :: ps) → p.text = some x → x ≠ "" →
        eventMessageToSend e = some (agentMessageFrame x)) := by
  refine ⟨agent_relay_eq_filterMap, ?_, ?_, ?_, ?_⟩
  · intro events e
    rw [agent_relay_eq_filterMap, agent_relay_eq_filterMap, List.filterMap_append]
    cases h : eventMessageToSend e <;> simp [h]
  · intro e h
    simp [eventMessageToSend, h]
  · intro e h1 h2
    simp [eventMessageToSend, h1, h2]
  · intro e c p ps x h1 h2 hc hp ht hx
    simp [eventMessageToSend, eventExtractText, h1, h2, hc, hp, ht, hx]

theorem agent_to_client_frame_mapping_witness :
    eventMessageToSend { turn_complete := true, interrupted := false, content := none }
      = some agentTurnCompleteFrame :=
  agent_to_client_frame_mapping.2.2.1
    { turn_complete := true, interrupted := false, content := none } rfl

/-- C3: for every inbound text frame received by the client-to-agent
relay, exactly one content unit with role "user" and that text is
enqueued to the agent's inbound queue, in arrival order; and on
transport disconnect or read error (as on cancellation) the relay
closes the inbound queue and terminates its loop. -/
theorem client_to_agent_enqueue_and_close (texts : List String)
    (term : ClientTermination) :
    (client_to_agent_messaging texts term).enqueued
        = texts.map (fun t =>
            { role := some "user", parts := some [{ text := some t }] })
    ∧ (client_to_agent_messaging texts term).queueClosed = true := by
  constructor
  · exact enqueueLoop_eq_map texts
  · cases term <;> rfl

/-- C9: for an event with neither `turn_complete` nor `interrupted`
set, a missing content, a missing or empty parts list, and a first part
whose `text` is `None` or empty (both falsy in Python) all cause the
relay to send no frame for that event and continue with the next one;
and when text is forwarded, only the first content part is ever
consulted — further parts of the same event are never sent. -/
theorem agent_event_without_text_sends_nothing :
    (∀ e : AgentEvent, e.turn_complete = false → e.interrupted = false →
        e.content = none → eventMessageToSend e = none)
    ∧ (∀ (e : AgentEvent) (c : GContent), e.turn_complete = false →
        e.interrupted = false → e.content = some c → c.parts = none →
        eventMessageToSend e = none)
    ∧ (∀ (e : AgentEvent) (c : GContent), e.turn_complete = false →
        e.interrupted = false → e.content = some c → c.parts = some [] →
        eventMessageToSend e = none)
    ∧ (∀ (e : AgentEvent) (c : GContent) (p : GPart) (ps : List GPart),
        e.turn_complete = false → e.interrupted = false →
        e.content = some c → c.parts = some (p :: ps) → p.text = none →
        eventMessageToSend e = none)
    ∧ (∀ (e : AgentEvent) (c : GContent) (p : GPart) (ps : List GPart),
        e.turn_complete = false → e.interrupted = false →
        e.content = some c → c.parts = some (p :: ps) → p.text = some "" →
        eventMessageToSend e = none)
    ∧ (∀ (e : AgentEvent) (c : GContent) (p : GPart) (ps : List GPart),
        e.content = some c → c.parts = some (p :: ps) →
        eventMessageToSend e
          = eventMessageToSend { e with content := some { c with parts := some [p] } })
    ∧ (∀ (e : AgentEvent) (rest : List AgentEvent), eventMessageToSend e = none →
        agent_to_client_messaging (e :: rest) = agent_to_client_messaging rest) := by
  refine ⟨?_, ?_, ?_, ?_, ?_, ?_, ?_⟩
  · intro e h1 h2 hc
    simp [eventMessageToSend, eventExtractText, h1, h2, hc]
  · intro e c h1 h2 hc hp
    simp [eventMessageToSend, eventExtractText, h1, h2, hc, hp]
  · intro e c h1 h2 hc hp
    simp [eventMessageToSend, eventExtractText, h1, h2, hc, hp]
  · intro e c p ps h1 h2 hc hp ht
    simp [eventMessageToSend, eventExtractText, h1, h2, hc, hp, ht]
  · intro e c p ps h1 h2 hc hp ht
    simp [eventMessageToSend, eventExtractText, h1, h2, hc, hp, ht]
  · intro e c p ps hc hp
    simp [eventMessageToSend, eventExtractText, hc, hp]
  · intro e rest h
    simp [agent_to_client_messaging, h]

theorem agent_event_without_text_sends_nothing_witness :
    eventMessageToSend { turn_complete := false, interrupted := false, content := none }
      = none :=
  agent_event_without_text_sends_nothing.1
    { turn_complete := false, interrupted := false, content := none } rfl rfl rfl

/-- C4: for every session whose endpoint terminates for any reason
(client disconnect, agent-stream end, relay-task error, endpoint
exception or cancellation), after the `finally` cleanup: the registry
no longer contains the session id, the agent inbound queue was closed
whenever one was created, and the transport was explicitly closed
whenever it was still reported connected — regardless of which relay
direction failed first. -/
theorem websocket_endpoint_cleanup (reg0 : Registry) (ctx0 : Option String)
    (session_id : String) (websocket : WebSocket) (sc : Scenario)
    (hwf : dictWF reg0) :
    dictGet session_id
        (websocket_endpoint reg0 ctx0 session_id websocket sc).registryFinal = none
    ∧ ((websocket_endpoint reg0 ctx0 session_id websocket sc).queueCreated = true →
        (websocket_endpoint reg0 ctx0 session_id websocket sc).queueCloseCalled = true)
    ∧ (sc.wsStateAtCleanup = WebSocketState.CONNECTED →
        (websocket_endpoint reg0 ctx0 session_id websocket sc).wsCloseCalled = true) := by
  refine ⟨?_, fun h => h, fun h => ?_⟩
  · exact dictGet_dictPop_self session_id _
      (dictWF_dictSet session_id websocket reg0 hwf)
  · exact decide_eq_true h

theorem websocket_endpoint_cleanup_witness :
    dictGet "abc"
        (websocket_endpoint [] none "abc" wsDemo scenarioDemo).registryFinal = none :=
  (websocket_endpoint_cleanup [] none "abc" wsDemo scenarioDemo (by decide)).1

/-- C5: at most one connection handle is registered per session id:
registering a second connection under the same id overwrites the
previous mapping entry, leaving exactly one registry entry for that id,
pointing at the newest handle (last-writer-wins). -/
theorem registry_reconnect_last_writer_wins (reg : Registry) (s : String)
    (h1 h2 : WebSocket) (hwf : dictWF reg) :
    keyCount s (dictSet s h2 (dictSet s h1 reg)) = 1
    ∧ dictGet s (dictSet s h2 (dictSet s h1 reg)) = some h2
    ∧ dictWF (dictSet s h2 (dictSet s h1 reg)) :=
  ⟨keyCount_dictSet s h2 _ (dictWF_dictSet s h1 reg hwf),
   dictGet_dictSet_self s h2 _,
   dictWF_dictSet s h2 _ (dictWF_dictSet s h1 reg hwf)⟩

theorem registry_reconnect_last_writer_wins_witness :
    keyCount "abc" (dictSet "abc" wsDemo2 (dictSet "abc" wsDemo [])) = 1
    ∧ dictGet "abc" (dictSet "abc" wsDemo2 (dictSet "abc" wsDemo [])) = some wsDemo2 :=
  ⟨(registry_reconnect_last_writer_wins [] "abc" wsDemo wsDemo2 (by decide)).1,
   (registry_reconnect_last_writer_wins [] "abc" wsDemo wsDemo2 (by decide)).2.1⟩

/-- C6: the ambient session-id context variable is bound to the
session's id when the agent-processing scope begins and is restored to
its prior value on every exit path of the endpoint (normal return,
exception in `start_agent_session` or `asyncio.wait`, and cancellation
of the endpoint task); the binding never outlives the endpoint's
scope. -/
theorem websocket_endpoint_ctx_scoped (reg0 : Registry) (ctx0 : Option String)
    (session_id : String) (websocket : WebSocket) (sc : Scenario) :
    (websocket_endpoint reg0 ctx0 session_id websocket sc).ctxDuringAgent
        = some session_id
    ∧ (websocket_endpoint reg0 ctx0 session_id websocket sc).ctxFinal = ctx0 :=
  ⟨rfl, rfl⟩

/-- C7: session teardown always terminates: each still-running relay
task cancelled during draining is awaited for at most the fixed
2000 ms (2.0 s) timeout, so the total drain wait is bounded by 2000 ms
per cancelled task (at most two) and the lifecycle always reaches
`Closed`, whatever the cancellation acknowledgements do. -/
theorem websocket_endpoint_teardown_bounded (reg0 : Registry)
    (ctx0 : Option String) (session_id : String) (websocket : WebSocket)
    (sc : Scenario) :
    (websocket_endpoint reg0 ctx0 session_id websocket sc).phases.getLast?
        = some SessionPhase.Closed
    ∧ (websocket_endpoint reg0 ctx0 session_id websocket sc).cancelledTaskCount ≤ 2
    ∧ (websocket_endpoint reg0 ctx0 session_id websocket sc).drainWaitMs
        ≤ 2000 * (websocket_endpoint reg0 ctx0 session_id websocket sc).cancelledTaskCount
    ∧ (websocket_endpoint reg0 ctx0 session_id websocket sc).drainWaitMs ≤ 4000 := by
  have hb1 : cancelWaitMs sc.a2cCancelAck ≤ 2000 := cancelWaitMs_le _
  have hb2 : cancelWaitMs sc.c2aCancelAck ≤ 2000 := cancelWaitMs_le _
  refine ⟨?_, ?_, ?_, ?_⟩
  · simp only [websocket_endpoint]
    split <;> rfl
  · simp only [websocket_endpoint]
    split <;> split <;> decide
  · simp only [websocket_endpoint]
    split <;> split <;> omega
  · simp only [websocket_endpoint]
    split <;> split <;> omega

/-- C8: the HTTP GET / handler serves the static `index.html` when it
exists; when it is missing it returns the Python tuple of the JSON
error body `{"error":"index.html not found"}` and `404` — the body the
spec describes, with the non-200 status carried in the returned value
rather than applied to the response. -/
theorem root_path_index_or_error (staticDir : String) :
    root_path staticDir true = .fileResponse (staticDir ++ "/index.html")
    ∧ root_path staticDir false
        = .tupleBodyStatus [("error", JPrim.str "index.html not found")] 404 :=
  ⟨rfl, rfl⟩

/-- C10: the status broadcaster survives per-message send failures: a
message whose send raises is logged as `sendErrorLogged` inside the
loop, the loop output decomposes around any message, and every message
of the stream is processed (one failing client never terminates status
delivery for the others). -/
theorem status_broadcaster_survives_send_failure (reg : Registry)
    (msgs1 : List (String × String)) (m : String × String)
    (msgs2 : List (String × String)) :
    status_message_broadcaster reg (msgs1 ++ m :: msgs2)
      = status_message_broadcaster reg msgs1
        ++ broadcasterStep reg m :: status_message_broadcaster reg msgs2
    ∧ (∀ ws : WebSocket, dictGet m.1 reg = some ws →
        ws.client_state = WebSocketState.CONNECTED →
        ws.sendOk (statusFrame m.2) = false →
        broadcasterStep reg m = .sendErrorLogged)
    ∧ (status_message_broadcaster reg (msgs1 ++ m :: msgs2)).length
        = msgs1.length + 1 + msgs2.length := by
  refine ⟨?_, ?_, ?_⟩
  · rw [status_message_broadcaster_append]
    rfl
  · intro ws hget hconn hsend
    obtain ⟨s, t⟩ := m
    simp only at hget hconn hsend
    simp [broadcasterStep, hget, broadcast_app_status_to_client, hconn, hsend]
  · rw [status_message_broadcaster_length]
    simp
    omega

theorem status_broadcaster_survives_send_failure_witness :
    broadcasterStep [("abc", wsFailDemo)] ("abc", "x") = .sendErrorLogged :=
  (status_broadcaster_survives_send_failure [("abc", wsFailDemo)] []
    ("abc", "x") []).2.1 wsFailDemo rfl rfl rfl

end StatusMessenger
